import Mathlib

/-!
Shallow embedding of the backend cycle pipeline of this repository
(src/backend/backend_best2.py) and proofs about it.

Measurements are modelled as rationals (the program only passes raw values
through; no floating-point arithmetic is performed on them), machine effects
at the process boundary (serial reads, HTTP responses, subprocess exit codes,
file-system write outcomes) are modelled as explicit input data, and Python
exceptions are modelled with Except.
-/

/-- Module constant FREQUENCY = 5 (seconds per cycle), line 27. -/
def FREQUENCY : ℚ := 5

/-- A JSON scalar, as stored in the record's time slot: the source assigns
data.get("time") in the constructor (Python None when the key is missing)
and datetime.now().isoformat() (a string) at each cycle start. -/
inductive JScalar where
  | null
  | num (q : ℚ)
  | str (s : String)
deriving Repr, DecidableEq

/-- The in-memory record, class AllData (lines 53-72): the Python object's
attributes after construction. -/
structure AllData where
  time : JScalar
  cidx : ℕ
  msgs : String
  mdsc : String
  temp : ℚ
  humi : ℚ
  pres : ℚ
  count_attr : ℕ
  expect_attr : ℕ
deriving Repr, DecidableEq

/-- The parsed content of the checkpoint file data_one.json: each key the
constructor reads may be present or absent.  cidx and cattr may also be
present in the file (end() writes them) but the constructor never reads
them; they are carried here to state that they are ignored. -/
structure Checkpoint where
  time : Option String
  cidx : Option ℤ
  cattr : Option ℤ
  temp : Option ℚ
  humi : Option ℚ
  pres : Option ℚ
deriving Repr, DecidableEq

/-- State of the checkpoint file at process start: absent, present but not
parseable as JSON, or parseable. -/
inductive CheckFile where
  | missing
  | malformed
  | parsed (data : Checkpoint)
deriving Repr, DecidableEq

/-- The exception kinds that open/json.load raise in AllData.__init__. -/
inductive InitError where
  | fileNotFound
  | jsonDecode
deriving Repr, DecidableEq

/-- AllData.__init__ (lines 54-71).  The body opens JSON_PATH and json.loads
it with no try/except anywhere on the path (nor around the construction at
line 161), so a missing file raises FileNotFoundError and unparseable
content raises JSONDecodeError, both uncaught: modelled as Except.error.
On success: time := data.get("time") (None when absent), cidx := 0,
msgs := "BLANK", mdsc := "", temp/humi/pres := data.get(key, 0),
count_attr := 0, expect_attr := 3. -/
def AllData.init : CheckFile → Except InitError AllData
  | .missing => .error .fileNotFound
  | .malformed => .error .jsonDecode
  | .parsed data =>
      .ok { time := match data.time with
                    | some s => .str s
                    | none => .null
            cidx := 0
            msgs := "BLANK"
            mdsc := ""
            temp := data.temp.getD 0
            humi := data.humi.getD 0
            pres := data.pres.getD 0
            count_attr := 0
            expect_attr := 3 }

/-- The dictionary produced by AllData._tojson (lines 73-86); also the shape
of one append-log row, of the staged database row and of the backup POST
body. -/
structure Packet where
  time : JScalar
  cidx : ℕ
  cattr : ℕ
  temp : ℚ
  humi : ℚ
  pres : ℚ
deriving Repr, DecidableEq

/-- AllData._tojson (lines 73-86). -/
def AllData.tojson (d : AllData) : Packet :=
  { time := d.time
    cidx := d.cidx
    cattr := d.count_attr
    temp := d.temp
    humi := d.humi
    pres := d.pres }

/-- The packet property (lines 132-133). -/
def AllData.packet (d : AllData) : Packet := d.tojson

/-- The attribute names sensor_attr is called with in the active code paths
(temp, humi from the serial driver; pres from the pressure driver). -/
inductive Attr where
  | temp
  | humi
  | pres
deriving Repr, DecidableEq

/-- AllData.sensor_attr (lines 146-148): increments count_attr, then
setattr(self, attr, value). -/
def AllData.sensor_attr (d : AllData) (attr : Attr) (value : ℚ) : AllData :=
  match attr with
  | .temp => { d with count_attr := d.count_attr + 1, temp := value }
  | .humi => { d with count_attr := d.count_attr + 1, humi := value }
  | .pres => { d with count_attr := d.count_attr + 1, pres := value }

/-- AllData.start (lines 139-141): stamp the timestamp, reset count_attr,
increment cidx. -/
def AllData.start (d : AllData) (now : String) : AllData :=
  { d with time := .str now, count_attr := 0, cidx := d.cidx + 1 }

/-- Python float(x) applied to a JSON value: either it converts (to some
rational) or it raises ValueError/TypeError. -/
inductive JFloat where
  | ok (q : ℚ)
  | fail
deriving Repr, DecidableEq

/-- Outcome of one serial read in get_temp_humi (lines 248-279), classified
by the branch the source takes on it:
 * readError: ser.readline()/decode raised (caught at line 278);
 * empty: the stripped line is empty (line 253);
 * nonJson: the line does not start with a brace and the brace-delimited
   search at line 260 finds nothing (line 261);
 * badJson: json.loads raised JSONDecodeError (line 276);
 * obj t h: json.loads produced a dict, with the temp and humi keys absent
   (none) or present with a given float-conversion outcome. -/
inductive SerialInput where
  | readError
  | empty
  | nonJson
  | badJson
  | obj (temp : Option JFloat) (humi : Option JFloat)
deriving Repr, DecidableEq

/-- get_temp_humi (lines 248-279) acting on the record.  On every failure
branch the function returns with the record untouched (the warning is only
logged).  On a parsed object it processes temp first, then humi
(lines 269-272); float() is evaluated before sensor_attr is called, so a
failing conversion raises before that field is written, but any field
already written stays written (the except at line 278 does not roll back). -/
def get_temp_humi (d : AllData) (inp : SerialInput) : AllData :=
  match inp with
  | .readError => d
  | .empty => d
  | .nonJson => d
  | .badJson => d
  | .obj none none => d
  | .obj none (some .fail) => d
  | .obj none (some (.ok w)) => d.sensor_attr .humi w
  | .obj (some .fail) _ => d
  | .obj (some (.ok v)) none => d.sensor_attr .temp v
  | .obj (some (.ok v)) (some .fail) => d.sensor_attr .temp v
  | .obj (some (.ok v)) (some (.ok w)) => (d.sensor_attr .temp v).sensor_attr .humi w

/-- get_pressure (lines 287-293): sense.get_pressure() either returns a
reading (some p) or raises (none); on a reading, sensor_attr("pres", p);
on any exception, a warning is logged and the record is untouched. -/
def get_pressure (d : AllData) (reading : Option ℚ) : AllData :=
  match reading with
  | some p => d.sensor_attr .pres p
  | none => d

/-- get_data_threaded (lines 295-312): the two drivers run in threads that
write disjoint fields and are joined before return; modelled as their
sequential composition. -/
def get_data_threaded (d : AllData) (serial : SerialInput) (pressure : Option ℚ) : AllData :=
  get_pressure (get_temp_humi d serial) pressure

/-- Environment of one _todatabase call (lines 87-114): either subprocess.run
completed with a return code, or it raised. -/
inductive DbWorld where
  | run (returncode : ℤ)
  | exn
deriving Repr, DecidableEq

/-- Observable outcome of one _todatabase call: the row staged into the
temporary CSV file, how many times psql was invoked, the exit code seen
(none if subprocess.run raised), whether the success marker was printed,
whether an error was reported, and whether the temporary file was unlinked
by the finally block. -/
structure DbOutcome where
  staged : Packet
  invocations : ℕ
  exitCode : Option ℤ
  printedOk : Bool
  reportedError : Bool
  tempDeleted : Bool
deriving Repr, DecidableEq

/-- AllData._todatabase (lines 87-114): stage the row, run psql once inside
try, report on returncode (0 prints the marker, anything else reports the
Postgres error), report any exception, and unlink the temporary file in the
finally block on every path. -/
def todatabase (p : Packet) (w : DbWorld) : DbOutcome :=
  match w with
  | .run code =>
      if code = 0 then
        { staged := p, invocations := 1, exitCode := some code,
          printedOk := true, reportedError := false, tempDeleted := true }
      else
        { staged := p, invocations := 1, exitCode := some code,
          printedOk := false, reportedError := true, tempDeleted := true }
  | .exn =>
      { staged := p, invocations := 1, exitCode := none,
        printedOk := false, reportedError := true, tempDeleted := true }

/-- Environment of one _tobackup call (lines 116-129): the requests.post
either returns a response with a status code, raises ReadTimeout, raises
some other RequestException, or raises something else entirely. -/
inductive HttpOutcome where
  | status (code : ℕ)
  | readTimeout
  | requestError
  | otherError
deriving Repr, DecidableEq

/-- Classification _tobackup assigns to the outcome. -/
inductive BackupResult where
  | success (code : ℕ)
  | unexpectedStatus (code : ℕ)
  | timeoutWarning
  | transportError
  | unknownError
deriving Repr, DecidableEq

/-- Observable outcome of one _tobackup call: the payload posted, the number
of POST attempts, and the classification of the result. -/
structure BackupOutcome where
  posted : Packet
  posts : ℕ
  result : BackupResult
deriving Repr, DecidableEq

/-- AllData._tobackup (lines 116-129): one requests.post of self.packet;
status in (200, 302) is the success path, any other status logs a warning,
ReadTimeout logs a timeout warning, other RequestExceptions log a transport
error, and the bare except logs an unknown failure.  No retry. -/
def tobackup (p : Packet) (h : HttpOutcome) : BackupOutcome :=
  { posted := p
    posts := 1
    result :=
      match h with
      | .status code =>
          if code = 200 ∨ code = 302 then .success code else .unexpectedStatus code
      | .readTimeout => .timeoutWarning
      | .requestError => .transportError
      | .otherError => .unknownError }

/-- Observable outcome of one _tocsv call (lines 134-138): the row was
appended, or the write raised inside its thread (there is no try/except in
_tocsv, so a raise kills only that thread) and nothing was appended. -/
inductive CsvOutcome where
  | appended (row : Packet)
  | failed
deriving Repr, DecidableEq

/-- AllData._tocsv (lines 134-138). -/
def tocsv (p : Packet) (writeOk : Bool) : CsvOutcome :=
  if writeOk then .appended p else .failed

/-- The per-cycle environment of the three persistence sinks. -/
structure SinkWorld where
  db : DbWorld
  csvOk : Bool
  http : HttpOutcome
deriving Repr, DecidableEq

/-- The three sink outcomes of one cycle. -/
structure SinkOutcomes where
  db : DbOutcome
  csv : CsvOutcome
  backup : BackupOutcome
deriving Repr, DecidableEq

/-- AllData._send_data_threaded (lines 149-159): the three sinks run in
threads on the same object and are all joined; none of them writes to the
record or communicates with another, so they are modelled as three
independent functions of the snapshot and of their own environments. -/
def send_data_threaded (p : Packet) (w : SinkWorld) : SinkOutcomes :=
  { db := todatabase p w.db
    csv := tocsv p w.csvOk
    backup := tobackup p w.http }

/-- Outcome of the checkpoint write in AllData.end (lines 142-144):
open(JSON_PATH, "w") succeeded and json.dump completed; or the open itself
raised (file untouched); or the dump raised after the open had already
truncated the file. -/
inductive WriteOutcome where
  | ok
  | openFail
  | dumpFail
deriving Repr, DecidableEq

/-- Content of the checkpoint file. -/
inductive CheckpointFile where
  | contents (p : Packet)
  | truncated
deriving Repr, DecidableEq

/-- AllData.end (lines 142-145), written endCycle because end is reserved in
Lean.  It opens the checkpoint file with mode "w" (truncating it), dumps
self.packet, then calls _send_data_threaded.  There is no try/except: if
open or dump raises, the exception propagates out of end() into the main
loop (which has no handler either), so the sinks never run; modelled as
Except.error carrying the file state left behind. -/
def AllData.endCycle (d : AllData) (oldFile : CheckpointFile) (wr : WriteOutcome)
    (w : SinkWorld) : Except CheckpointFile (CheckpointFile × SinkOutcomes) :=
  match wr with
  | .ok => .ok (.contents d.packet, send_data_threaded d.packet w)
  | .openFail => .error oldFile
  | .dumpFail => .error .truncated

/-- The tail of the main loop (lines 338-347): sleep_s := FREQUENCY - elapsed;
if sleep_s > 0 the process sleeps sleep_s and logs nothing, otherwise it
sleeps nothing and logs an overrun of -sleep_s.  Returns the sleep duration
and the logged overrun, if any. -/
def scheduler_sleep (elapsed : ℚ) : ℚ × Option ℚ :=
  let sleep_s := FREQUENCY - elapsed
  if 0 < sleep_s then (sleep_s, none) else (0, some (-sleep_s))

/-- Everything outside the record that one iteration of the main loop
(lines 330-347) consumes: the timestamp, the two driver environments, the
checkpoint-write outcome and the three sink environments. -/
structure CycleInput where
  now : String
  serial : SerialInput
  pressure : Option ℚ
  write : WriteOutcome
  world : SinkWorld
deriving Repr, DecidableEq

/-- The record after one loop iteration: alldata.start() then
get_data_threaded() (lines 331-332).  alldata.end() only reads the record,
so the record's evolution does not depend on write or world. -/
def cycleRecord (d : AllData) (c : CycleInput) : AllData :=
  get_data_threaded (d.start c.now) c.serial c.pressure

/-- The record after a list of loop iterations. -/
def runCycles (d : AllData) : List CycleInput → AllData
  | [] => d
  | c :: cs => runCycles (cycleRecord d c) cs

/-- The serial-driver failure modes in which get_temp_humi returns without
writing any field: empty line, non-JSON line, JSON decode error, read
exception. -/
def serialFails : SerialInput → Bool
  | .readError => true
  | .empty => true
  | .nonJson => true
  | .badJson => true
  | .obj _ _ => false

/-! ### Helper lemmas -/

theorem sensor_attr_cidx (d : AllData) (a : Attr) (v : ℚ) :
    (d.sensor_attr a v).cidx = d.cidx := by
  cases a <;> rfl

theorem get_temp_humi_cidx (d : AllData) (s : SerialInput) :
    (get_temp_humi d s).cidx = d.cidx := by
  cases s with
  | obj t h =>
      cases t with
      | none => cases h with
        | none => rfl
        | some jf => cases jf <;> rfl
      | some jf => cases jf with
        | fail => rfl
        | ok v => cases h with
          | none => rfl
          | some jf2 => cases jf2 <;> rfl
  | _ => rfl

theorem get_pressure_cidx (d : AllData) (r : Option ℚ) :
    (get_pressure d r).cidx = d.cidx := by
  cases r <;> rfl

theorem cycleRecord_cidx (d : AllData) (c : CycleInput) :
    (cycleRecord d c).cidx = d.cidx + 1 := by
  unfold cycleRecord get_data_threaded
  rw [get_pressure_cidx, get_temp_humi_cidx]
  rfl

theorem runCycles_cidx (cs : List CycleInput) (d : AllData) :
    (runCycles d cs).cidx = d.cidx + cs.length := by
  induction cs generalizing d with
  | nil => rfl
  | cons c cs ih =>
      show (runCycles (cycleRecord d c) cs).cidx = d.cidx + (cs.length + 1)
      rw [ih, cycleRecord_cidx]
      omega

theorem get_temp_humi_pres (d : AllData) (s : SerialInput) :
    (get_temp_humi d s).pres = d.pres := by
  cases s with
  | obj t h =>
      cases t with
      | none => cases h with
        | none => rfl
        | some jf => cases jf <;> rfl
      | some jf => cases jf with
        | fail => rfl
        | ok v => cases h with
          | none => rfl
          | some jf2 => cases jf2 <;> rfl
  | _ => rfl

theorem get_pressure_temp (d : AllData) (r : Option ℚ) :
    (get_pressure d r).temp = d.temp := by
  cases r <;> rfl

theorem get_pressure_humi (d : AllData) (r : Option ℚ) :
    (get_pressure d r).humi = d.humi := by
  cases r <;> rfl

theorem get_temp_humi_of_fails (d : AllData) (s : SerialInput)
    (hs : serialFails s = true) : get_temp_humi d s = d := by
  cases s with
  | obj t h => simp [serialFails] at hs
  | _ => rfl

theorem get_temp_humi_temp_of_none (x : AllData) (h : Option JFloat) :
    (get_temp_humi x (.obj none h)).temp = x.temp := by
  cases h with
  | none => rfl
  | some jf => cases jf <;> rfl

theorem get_temp_humi_humi_of_none (x : AllData) (t : Option JFloat) :
    (get_temp_humi x (.obj t none)).humi = x.humi := by
  cases t with
  | none => rfl
  | some jf => cases jf <;> rfl

/-! ### Concrete fixtures for witnesses and counterexamples -/

/-- A checkpoint file whose JSON object has none of the six keys. -/
def chk0 : Checkpoint := ⟨none, none, none, none, none, none⟩

/-- The record AllData.init produces from chk0. -/
def seed0 : AllData :=
  { time := .null, cidx := 0, msgs := "BLANK", mdsc := "", temp := 0, humi := 0,
    pres := 0, count_attr := 0, expect_attr := 3 }

/-- A sink environment in which every sink takes its success path. -/
def worldOk : SinkWorld := ⟨.run 0, true, .status 200⟩

/-- A cycle in which both drivers fail and every sink succeeds. -/
def cycA : CycleInput := ⟨"2026-10-12T00:00:00", .empty, none, .ok, worldOk⟩

/-- A concrete snapshot packet. -/
def pX : Packet := ⟨.str "2026-10-12T00:00:00", 1, 3, 24, 55, 1008⟩

/-- A concrete record mid-run, with nonzero field values. -/
def staleD : AllData :=
  { time := .str "t0", cidx := 3, msgs := "BLANK", mdsc := "", temp := 21, humi := 48,
    pres := 1001, count_attr := 2, expect_attr := 3 }

/-- A cycle input in which the serial line is empty and the pressure read
raises, with all sinks healthy. -/
def staleC : CycleInput := ⟨"t1", .empty, none, .ok, worldOk⟩

/-! ### Claims -/

/-- Claim C1: across any run of the scheduler loop started from a
successfully constructed record, cidx is 0 at process start, is incremented
by exactly 1 at each cycle start, and equals k after cycle k — for every
sequence of cycle inputs, i.e. regardless of which drivers or sinks fail in
any cycle (the sink and write environments inside each CycleInput are
unconstrained, and the record's evolution never reads them). -/
theorem c1_cidx_progression (f : CheckFile) (d0 : AllData) (cs : List CycleInput)
    (h : AllData.init f = .ok d0) :
    (runCycles d0 cs).cidx = cs.length ∧
    ∀ (d : AllData) (c : CycleInput), (cycleRecord d c).cidx = d.cidx + 1 := by
  constructor
  · have h0 : d0.cidx = 0 := by
      cases f with
      | missing => exact absurd h (by simp [AllData.init])
      | malformed => exact absurd h (by simp [AllData.init])
      | parsed data =>
          simp only [AllData.init, Except.ok.injEq] at h
          subst h
          rfl
    rw [runCycles_cidx, h0]
    omega
  · exact fun d c => cycleRecord_cidx d c

/-- Witness for C1: starting from the record seeded from an empty checkpoint,
after 3 cycles (each with both drivers failing) cidx is 3. -/
theorem c1_cidx_progression_witness :
    (runCycles seed0 [cycA, cycA, cycA]).cidx = 3 := by
  have h := (c1_cidx_progression (.parsed chk0) seed0 [cycA, cycA, cycA] rfl).1
  simpa using h

/-- Claim C2: in any cycle where the serial driver fails (empty line,
non-JSON line, bad JSON, read exception) temp and humi keep their previous
cycle-end values and the serial phase contributes 0 to count_attr; if a
temp/humi key is merely missing, that field keeps its value; if the
pressure driver raises, pres keeps its value and count_attr is exactly the
serial phase's count; and the cycle still persists: end() on the resulting
record returns the written checkpoint and all three sink outcomes. -/
theorem c2_stale_value (d : AllData) (c : CycleInput) :
    (serialFails c.serial = true →
        (cycleRecord d c).temp = d.temp ∧ (cycleRecord d c).humi = d.humi ∧
        (get_temp_humi (d.start c.now) c.serial).count_attr = 0) ∧
    (c.pressure = none →
        (cycleRecord d c).pres = d.pres ∧
        (cycleRecord d c).count_attr = (get_temp_humi (d.start c.now) c.serial).count_attr) ∧
    (∀ h, c.serial = .obj none h → (cycleRecord d c).temp = d.temp) ∧
    (∀ t, c.serial = .obj t none → (cycleRecord d c).humi = d.humi) ∧
    (∀ oldF w, AllData.endCycle (cycleRecord d c) oldF .ok w =
        .ok (.contents (cycleRecord d c).packet,
             send_data_threaded (cycleRecord d c).packet w)) := by
  refine ⟨?_, ?_, ?_, ?_, fun oldF w => rfl⟩
  · intro hs
    have he := get_temp_humi_of_fails (d.start c.now) c.serial hs
    unfold cycleRecord get_data_threaded
    rw [get_pressure_temp, get_pressure_humi, he]
    exact ⟨rfl, rfl, rfl⟩
  · intro hp
    simp [cycleRecord, get_data_threaded, hp, get_pressure, get_temp_humi_pres,
      AllData.start]
  · intro h hs
    simp [cycleRecord, get_data_threaded, hs, get_pressure_temp,
      get_temp_humi_temp_of_none, AllData.start]
  · intro t hs
    simp [cycleRecord, get_data_threaded, hs, get_pressure_humi,
      get_temp_humi_humi_of_none, AllData.start]

/-- Witness for C2: a cycle with an empty serial line and a failing pressure
read leaves temp, humi and pres at their previous values. -/
theorem c2_stale_value_witness :
    (cycleRecord staleD staleC).temp = staleD.temp ∧
    (cycleRecord staleD staleC).humi = staleD.humi ∧
    (cycleRecord staleD staleC).pres = staleD.pres := by
  have h := c2_stale_value staleD staleC
  exact ⟨(h.1 rfl).1, (h.1 rfl).2.1, (h.2.1 rfl).1⟩

/-- Counterexample to claim C3 as stated: on a missing checkpoint file the
constructor does not produce any record at all (no zero-valued fallback, no
continuation into the loop) — there is no try/except around the open or the
json.load, so the exception escapes. -/
theorem c3_counterexample :
    ¬ ∃ r : AllData, AllData.init .missing = .ok r := by
  rintro ⟨r, h⟩
  simp [AllData.init] at h

/-- Claim C3 amended: if the checkpoint file is missing or malformed, the
constructor raises (FileNotFoundError or JSONDecodeError respectively); the
exception is uncaught, so the process dies at startup instead of continuing
with zero-valued defaults. -/
theorem c3_load_failure_fatal :
    AllData.init .missing = .error .fileNotFound ∧
    AllData.init .malformed = .error .jsonDecode :=
  ⟨rfl, rfl⟩

/-- Claim C4: with cadence FREQUENCY, if the elapsed time since the previous
cycle's reference point is below the cadence the loop sleeps exactly
FREQUENCY - elapsed and logs no overrun; if elapsed is at least the cadence
it sleeps zero and logs an overrun of elapsed - FREQUENCY. -/
theorem c4_cadence (elapsed : ℚ) :
    (elapsed < FREQUENCY → scheduler_sleep elapsed = (FREQUENCY - elapsed, none)) ∧
    (FREQUENCY ≤ elapsed → scheduler_sleep elapsed = (0, some (elapsed - FREQUENCY))) := by
  constructor
  · intro h
    have hpos : 0 < FREQUENCY - elapsed := by linarith
    simp [scheduler_sleep, hpos]
  · intro h
    have hnonpos : ¬ 0 < FREQUENCY - elapsed := by linarith
    simp [scheduler_sleep, hnonpos, neg_sub]

/-- Witness for C4, matching the spec's worked example: cadence 5 and a
7-unit cycle give zero sleep and an overrun of 2; a 3-unit cycle gives a
2-unit sleep and no overrun. -/
theorem c4_cadence_witness :
    scheduler_sleep 7 = (0, some 2) ∧ scheduler_sleep 3 = (2, none) := by
  constructor
  · rw [(c4_cadence 7).2 (by norm_num [FREQUENCY])]
    norm_num [FREQUENCY]
  · rw [(c4_cadence 3).1 (by norm_num [FREQUENCY])]
    norm_num [FREQUENCY]

/-- Claim C10: on a serial line parsing to an object whose temp converts to a
float q but whose humi fails float conversion, the driver commits temp := q
and increments count_attr before failing on humi, which keeps its previous
value — the two-field update is not atomic. -/
theorem c10_partial_update (d : AllData) (q : ℚ) :
    (get_temp_humi d (.obj (some (.ok q)) (some .fail))).temp = q ∧
    (get_temp_humi d (.obj (some (.ok q)) (some .fail))).humi = d.humi ∧
    (get_temp_humi d (.obj (some (.ok q)) (some .fail))).count_attr = d.count_attr + 1 :=
  ⟨rfl, rfl, rfl⟩

/-- The result branch of _tobackup on a response with a status code. -/
theorem tobackup_status (p : Packet) (c : ℕ) :
    (tobackup p (.status c)).result =
      if c = 200 ∨ c = 302 then .success c else .unexpectedStatus c := rfl

/-- Claim C5: per-cycle sink isolation.  With the append-log and backup
environments held fixed, a non-zero exit code from the relational sink's
external process changes nothing about the append-log and backup outcomes
relative to a run where it exits zero; both still act on the same snapshot
and take their normal paths, while the relational sink reports its error. -/
theorem c5_sink_isolation (p : Packet) (csvOk : Bool) (http : HttpOutcome) (e : ℤ)
    (he : e ≠ 0) :
    (send_data_threaded p ⟨.run e, csvOk, http⟩).csv =
      (send_data_threaded p ⟨.run 0, csvOk, http⟩).csv ∧
    (send_data_threaded p ⟨.run e, csvOk, http⟩).backup =
      (send_data_threaded p ⟨.run 0, csvOk, http⟩).backup ∧
    (send_data_threaded p ⟨.run e, csvOk, http⟩).backup.posted = p ∧
    (send_data_threaded p ⟨.run e, csvOk, http⟩).db.reportedError = true ∧
    (csvOk = true → (send_data_threaded p ⟨.run e, csvOk, http⟩).csv = .appended p) := by
  refine ⟨rfl, rfl, rfl, ?_, ?_⟩
  · simp [send_data_threaded, todatabase, he]
  · intro hc
    simp [send_data_threaded, tocsv, hc]

/-- Witness for C5: with psql exiting 1, the append-log row is still written
and the backup outcome matches the psql-success run exactly. -/
theorem c5_sink_isolation_witness :
    (send_data_threaded pX ⟨.run 1, true, .status 200⟩).csv = .appended pX ∧
    (send_data_threaded pX ⟨.run 1, true, .status 200⟩).backup =
      (send_data_threaded pX ⟨.run 0, true, .status 200⟩).backup ∧
    (send_data_threaded pX ⟨.run 1, true, .status 200⟩).db.reportedError = true := by
  have h := c5_sink_isolation pX true (.status 200) 1 one_ne_zero
  exact ⟨h.2.2.2.2 rfl, h.2.1, h.2.2.2.1⟩

/-- Counterexample to claim C6 as stated: when the json.dump at line 144
raises, end() propagates the exception — the persistence fan-out never runs
(no sink outcomes are produced) and the checkpoint file is left truncated,
holding neither the old nor the new snapshot; so a write failure is not a
logged-and-continue event and the overwrite is not atomic. -/
theorem c6_counterexample :
    AllData.endCycle staleD (.contents pX) .dumpFail worldOk = .error .truncated ∧
    ¬ ∃ out, AllData.endCycle staleD (.contents pX) .dumpFail worldOk = .ok out := by
  refine ⟨rfl, ?_⟩
  rintro ⟨out, h⟩
  simp [AllData.endCycle] at h

/-- Claim C6 amended: at cycle end the checkpoint file is rewritten by
truncate-then-write: on success it holds exactly the new snapshot and the
persistence fan-out runs; but a failing open leaves the old file and a
failing dump leaves a truncated file, and in both failure cases the
exception propagates out of end() uncaught, so the fan-out is skipped and
the cycle (and process) aborts rather than logging and continuing. -/
theorem c6_checkpoint_write (d : AllData) (oldF : CheckpointFile) (w : SinkWorld) :
    AllData.endCycle d oldF .ok w =
      .ok (.contents d.packet, send_data_threaded d.packet w) ∧
    AllData.endCycle d oldF .openFail w = .error oldF ∧
    AllData.endCycle d oldF .dumpFail w = .error .truncated :=
  ⟨rfl, rfl, rfl⟩

/-- Claim C7: on every exit path of _todatabase — zero exit, non-zero exit,
exception from subprocess.run — the staged temporary file is unlinked by the
finally block; psql is invoked exactly once (no retry); a non-zero exit and
an exception are reported as errors, a zero exit is not. -/
theorem c7_temp_cleanup (p : Packet) (w : DbWorld) (code : ℤ) (hne : code ≠ 0) :
    (todatabase p w).tempDeleted = true ∧
    (todatabase p w).invocations = 1 ∧
    (todatabase p (.run code)).reportedError = true ∧
    (todatabase p .exn).reportedError = true ∧
    (todatabase p (.run 0)).reportedError = false := by
  refine ⟨?_, ?_, ?_, rfl, ?_⟩
  · cases w with
    | run c => by_cases hc : c = 0 <;> simp [todatabase, hc]
    | exn => rfl
  · cases w with
    | run c => by_cases hc : c = 0 <;> simp [todatabase, hc]
    | exn => rfl
  · simp [todatabase, hne]
  · simp [todatabase]

/-- Witness for C7: with psql exiting 1 the temporary file is deleted and the
error is reported. -/
theorem c7_temp_cleanup_witness :
    (todatabase pX (.run 1)).tempDeleted = true ∧
    (todatabase pX (.run 1)).reportedError = true := by
  have h := c7_temp_cleanup pX (.run 1) 1 one_ne_zero
  exact ⟨h.1, h.2.2.1⟩

/-- Claim C8: _tobackup treats a response as success exactly when its status
code is 200 or 302; a status outside that set is classified as an unexpected
status, a read timeout and any other transport error get their own distinct
classifications; and the packet is posted exactly once per invocation (no
retry) regardless of outcome. -/
theorem c8_backup_classification (p : Packet) (h : HttpOutcome) (c : ℕ) :
    ((tobackup p (.status c)).result = .success c ↔ (c = 200 ∨ c = 302)) ∧
    ((tobackup p h).posts = 1 ∧ (tobackup p h).posted = p) ∧
    (tobackup p .readTimeout).result = .timeoutWarning ∧
    (tobackup p .requestError).result = .transportError ∧
    (c ≠ 200 → c ≠ 302 → (tobackup p (.status c)).result = .unexpectedStatus c) := by
  refine ⟨?_, ⟨rfl, rfl⟩, rfl, rfl, ?_⟩
  · rw [tobackup_status]
    constructor
    · intro hs
      by_cases hc : c = 200 ∨ c = 302
      · exact hc
      · rw [if_neg hc] at hs
        exact absurd hs (by simp)
    · intro hc
      rw [if_pos hc]
  · intro h200 h302
    rw [tobackup_status, if_neg (by tauto)]

/-- Witness for C8: status 404 is classified as an unexpected status with a
single POST attempt, and status 200 is a success. -/
theorem c8_backup_classification_witness :
    (tobackup pX (.status 404)).result = .unexpectedStatus 404 ∧
    (tobackup pX (.status 200)).result = .success 200 ∧
    (tobackup pX (.status 404)).posts = 1 := by
  have h404 := c8_backup_classification pX (.status 404) 404
  have h200 := c8_backup_classification pX (.status 200) 200
  exact ⟨h404.2.2.2.2 (by decide) (by decide), h200.1.mpr (Or.inl rfl), h404.2.1.1⟩

/-- Counterexample to claim C9 as stated: loading a present, well-formed
checkpoint object with no keys seeds temp/humi/pres with 0 as claimed, but
the time entry does not default to 0 — the constructor stores
data.get("time"), which is Python None, not 0. -/
theorem c9_counterexample :
    AllData.init (.parsed chk0) = .ok seed0 ∧
    seed0.time = .null ∧ seed0.time ≠ .num 0 ∧ seed0.temp = 0 :=
  ⟨rfl, rfl, by decide, rfl⟩

/-- Claim C9 amended: on load from a present, well-formed checkpoint file,
the numeric fields temp/humi/pres default to 0 when their keys are missing;
the time entry is copied verbatim and is None (not 0) when missing; and the
record's cidx and count_attr are reset to a fresh 0 regardless of any cidx
or cattr values carried in the file. -/
theorem c9_load_defaults (j : Checkpoint) :
    ∃ r : AllData, AllData.init (.parsed j) = .ok r ∧
      r.temp = j.temp.getD 0 ∧ r.humi = j.humi.getD 0 ∧ r.pres = j.pres.getD 0 ∧
      r.cidx = 0 ∧ r.count_attr = 0 ∧
      r.time = (match j.time with | some s => JScalar.str s | none => JScalar.null) :=
  ⟨_, rfl, rfl, rfl, rfl, rfl, rfl, rfl⟩
